import Mathlib

/-!
Verification of the image-store coordinator logic of `src/main.go`
(Go-Image-Store).

The handlers `createImage`, `listImages`, `deleteImage` and `downloadImage`
are embedded as pure Lean functions.  The two external stores become explicit
state: the Blob Store is an association list from object keys to stored
objects (plus a trace of delete calls, so "a compensating delete was
attempted" is observable), and the Metadata Store is a list of rows together
with the next auto-increment id (Postgres `serial`, starting at 1).

Calls to the external stores can fail at runtime; every such call site gets
an explicit boolean fault parameter.  A failed call leaves the target store's
contents unchanged and the handler takes the corresponding Go error branch.
The database row lookup `QueryRow(...).Scan(...)` is modelled so that an
injected query failure yields the same `err != nil` outcome as a missing
row, exactly as the Go code observes it.
-/

/-- An object stored in the Blob Store: raw bytes plus the content type
recorded at `PutObject` time. -/
structure BlobObject where
  body : List Nat
  contentType : String
deriving DecidableEq

/-- The Blob Store: keyed objects, plus the trace of keys for which
`DeleteObject` was called (so compensating deletes are observable). -/
structure BlobStore where
  objects : List (String × BlobObject)
  deleteCalls : List String
deriving DecidableEq

/-- `PutObject`: (over)writes the object at `key`. -/
def BlobStore.putObject (bs : BlobStore) (key : String) (obj : BlobObject) : BlobStore :=
  { bs with objects := (key, obj) :: bs.objects.filter (fun p => p.1 != key) }

/-- `GetObject`: looks the object up by key. -/
def BlobStore.getObject (bs : BlobStore) (key : String) : Option BlobObject :=
  (bs.objects.find? (fun p => p.1 == key)).map Prod.snd

/-- `DeleteObject` when the call succeeds: removes the object (delete of a
missing key is a success) and records the call. -/
def BlobStore.deleteObject (bs : BlobStore) (key : String) : BlobStore :=
  { objects := bs.objects.filter (fun p => p.1 != key),
    deleteCalls := bs.deleteCalls ++ [key] }

/-- `DeleteObject` when the call fails: the objects are untouched but the
attempt is still recorded in the trace. -/
def BlobStore.failedDeleteObject (bs : BlobStore) (key : String) : BlobStore :=
  { bs with deleteCalls := bs.deleteCalls ++ [key] }

/-- One row of the `images` table, also the JSON record the API returns
(struct `ImageMetadata` in `main.go`). -/
structure ImageMetadata where
  id : Nat
  filename : String
  size : Nat
  objectKey : String
  contentType : String
  createdAt : Nat
deriving DecidableEq

/-- The Metadata Store: the `images` table plus the `serial` counter that
assigns the next `id`. -/
structure MetaStore where
  rows : List ImageMetadata
  nextId : Nat
deriving DecidableEq

/-- A fresh database: empty table, `serial` counter at 1. -/
def emptyMeta : MetaStore := { rows := [], nextId := 1 }

/-- `INSERT INTO images ... RETURNING id`: appends a row with the
auto-assigned id and returns that id. -/
def MetaStore.insertRow (ms : MetaStore) (filename : String) (size : Nat)
    (objectKey contentType : String) (createdAt : Nat) : Nat × MetaStore :=
  (ms.nextId,
   { rows := ms.rows ++ [⟨ms.nextId, filename, size, objectKey, contentType, createdAt⟩],
     nextId := ms.nextId + 1 })

/-- `SELECT ... FROM images WHERE id=$1`: the first row with the given id. -/
def MetaStore.findRow (ms : MetaStore) (imageID : Nat) : Option ImageMetadata :=
  ms.rows.find? (fun r => r.id == imageID)

/-- `DELETE FROM images WHERE id=$1`. -/
def MetaStore.deleteRow (ms : MetaStore) (imageID : Nat) : MetaStore :=
  { ms with rows := ms.rows.filter (fun r => r.id != imageID) }

/-- Well-formedness of the table that the `serial` discipline maintains:
every present id is below the counter. -/
def MetaStore.wf (ms : MetaStore) : Prop :=
  ∀ r ∈ ms.rows, r.id < ms.nextId

instance (ms : MetaStore) : Decidable ms.wf := by
  unfold MetaStore.wf; infer_instance

/-- Outcome of `createImage` (POST /images). `s3UploadFailed` is the
"Failed to upload to S3" 500, `dbInsertFailed` the "Database insert
failed" 500. -/
inductive CreateResult where
  | s3UploadFailed
  | dbInsertFailed
  | ok (record : ImageMetadata)
deriving DecidableEq

/-- `createImage` from `main.go`: put the payload to S3 under
`handler.Filename` with the declared content type; on success insert the
metadata row and respond with the populated record.  On S3 failure return
500 with nothing written; on insert failure return 500 — the just-written
blob is left in place and no `DeleteObject` is issued. -/
def createImage (payload : List Nat) (filename contentType : String) (now : Nat)
    (s3PutFails dbInsertFails : Bool) (bs : BlobStore) (ms : MetaStore) :
    CreateResult × BlobStore × MetaStore :=
  if s3PutFails then (.s3UploadFailed, bs, ms)
  else
    let bs2 := bs.putObject filename ⟨payload, contentType⟩
    if dbInsertFails then (.dbInsertFailed, bs2, ms)
    else
      let ins := ms.insertRow filename payload.length filename contentType now
      (.ok ⟨ins.1, filename, payload.length, filename, contentType, now⟩, bs2, ins.2)

/-- Outcome of `listImages` (GET /images): 500 on query failure, otherwise
the rows of the query `select ... from images order by id`. -/
inductive ListResult where
  | queryFailed
  | ok (records : List ImageMetadata)
deriving DecidableEq

/-- `listImages` from `main.go`: one query ordered by ascending id. -/
def listImages (queryFails : Bool) (ms : MetaStore) : ListResult :=
  if queryFails then .queryFailed
  else .ok (ms.rows.insertionSort (fun a b => a.id ≤ b.id))

/-- Outcome of `deleteImage` (DELETE /images/\x7bid\x7d): `notFound` is the
404 taken whenever the row lookup errors, `s3DeleteFailed` and
`dbDeleteFailed` the two 500s, `noContent` the 204 success. -/
inductive DeleteResult where
  | notFound
  | s3DeleteFailed
  | dbDeleteFailed
  | noContent
deriving DecidableEq

/-- `deleteImage` from `main.go`: look up `object_key` by id (any scan
error, missing row or failing query alike, is answered with 404), then
delete the blob, then delete the row. -/
def deleteImage (imageID : Nat) (queryFails s3DeleteFails dbDeleteFails : Bool)
    (bs : BlobStore) (ms : MetaStore) : DeleteResult × BlobStore × MetaStore :=
  match (if queryFails then none else ms.findRow imageID) with
  | none => (.notFound, bs, ms)
  | some row =>
    if s3DeleteFails then (.s3DeleteFailed, bs.failedDeleteObject row.objectKey, ms)
    else
      let bs2 := bs.deleteObject row.objectKey
      if dbDeleteFails then (.dbDeleteFailed, bs2, ms)
      else (.noContent, bs2, ms.deleteRow imageID)

/-- Outcome of `downloadImage` (GET /download/\x7bid\x7d): 404 on any row
lookup error, 500 on S3 `GetObject` failure, otherwise the raw bytes, the
served `Content-Type`, and the attachment filename from
`Content-Disposition`. -/
inductive DownloadResult where
  | notFound
  | s3DownloadFailed
  | ok (body : List Nat) (contentType : String) (attachmentFilename : String)
deriving DecidableEq

/-- `downloadImage` from `main.go`: look up `object_key` by id (any scan
error is a 404), fetch the blob, and serve its bytes with the object's
recorded content type, falling back to `application/octet-stream` when that
is absent or empty; the attachment is named after the object key. -/
def downloadImage (imageID : Nat) (queryFails s3GetFails : Bool)
    (bs : BlobStore) (ms : MetaStore) : DownloadResult :=
  match (if queryFails then none else ms.findRow imageID) with
  | none => .notFound
  | some row =>
    match (if s3GetFails then none else bs.getObject row.objectKey) with
    | none => .s3DownloadFailed
    | some obj =>
      .ok obj.body
        (if obj.contentType = "" then "application/octet-stream" else obj.contentType)
        row.objectKey

/-- A sequence of fault-free creates, carried out left to right. -/
def createMany (items : List (List Nat × String × String)) (now : Nat)
    (bs : BlobStore) (ms : MetaStore) : BlobStore × MetaStore :=
  match items with
  | [] => (bs, ms)
  | (p, f, ct) :: rest =>
    let out := createImage p f ct now false false bs ms
    createMany rest now out.2.1 out.2.2

/-- The rows that a run of fault-free creates appends, ids counted up
from `n`. -/
def newRecords (items : List (List Nat × String × String)) (now n : Nat) :
    List ImageMetadata :=
  match items with
  | [] => []
  | (p, f, ct) :: rest => ⟨n, f, p.length, f, ct, now⟩ :: newRecords rest now (n + 1)

/-- Concrete fixtures used by the witness theorems: a one-object blob store
and a matching one-row table. -/
def bsW : BlobStore := ⟨[("a.png", ⟨[1, 2, 3], "image/png"⟩)], []⟩

/-- One-row metadata table matching `bsW`. -/
def msW : MetaStore := ⟨[⟨1, "a.png", 3, "a.png", "image/png", 0⟩], 2⟩

/-- A table whose single row agrees with `msW` on `objectKey` but differs in
every other column, in particular `content_type`. -/
def msB : MetaStore := ⟨[⟨1, "b.txt", 9, "a.png", "text/plain", 5⟩], 2⟩

-- General helper lemmas about the store operations.

theorem BlobStore.getObject_putObject (bs : BlobStore) (key : String) (obj : BlobObject) :
    (bs.putObject key obj).getObject key = some obj := by
  simp [BlobStore.putObject, BlobStore.getObject]

theorem find?_append_of_none {α : Type} (p : α → Bool) (l1 l2 : List α)
    (h : ∀ x ∈ l1, ¬p x = true) :
    (l1 ++ l2).find? p = l2.find? p := by
  induction l1 with
  | nil => rfl
  | cons a l ih =>
    rw [List.cons_append, List.find?_cons_of_neg _ (h a (List.mem_cons_self a l))]
    exact ih fun x hx => h x (List.mem_cons_of_mem a hx)

-- C2 --

/-- C2: if the Blob Store write fails, `createImage` aborts with the S3
upload error (the model's `StorageWriteFailed`), both stores are unchanged,
and a subsequent `listImages` is exactly what it was before the attempt: no
row for the attempt exists. -/
theorem createImage_blobWriteFail_spec (payload : List Nat)
    (filename contentType : String) (now : Nat) (dbInsertFails queryFails : Bool)
    (bs : BlobStore) (ms : MetaStore) :
    createImage payload filename contentType now true dbInsertFails bs ms =
      (.s3UploadFailed, bs, ms) ∧
    listImages queryFails
        (createImage payload filename contentType now true dbInsertFails bs ms).2.2 =
      listImages queryFails ms :=
  ⟨rfl, rfl⟩

-- C1 --

/-- C1, counterexample: run a create whose blob write succeeds and whose
metadata insert fails.  The handler does return the metadata-write error,
but the Blob Store's delete-call trace is still empty and the just-written
blob is still present: no compensating delete is ever attempted, contrary
to the claim. -/
theorem createImage_insertFail_counterexample :
    (createImage [1] "a.png" "image/png" 0 false true ⟨[], []⟩ emptyMeta).1 =
      .dbInsertFailed ∧
    (createImage [1] "a.png" "image/png" 0 false true ⟨[], []⟩ emptyMeta).2.1.deleteCalls
      = [] ∧
    (createImage [1] "a.png" "image/png" 0 false true ⟨[], []⟩ emptyMeta).2.1.getObject
      "a.png" = some ⟨[1], "image/png"⟩ := by
  decide

/-- C1, amended: if the metadata insert fails after a successful blob write,
`createImage` returns the metadata-write error (never success) and leaves
the metadata store unchanged, but it does NOT attempt a compensating delete:
the just-written blob stays in the store and no delete call is issued. -/
theorem createImage_insertFail_spec (payload : List Nat)
    (filename contentType : String) (now : Nat) (bs : BlobStore) (ms : MetaStore) :
    (createImage payload filename contentType now false true bs ms).1 =
      .dbInsertFailed ∧
    (createImage payload filename contentType now false true bs ms).2.2 = ms ∧
    (createImage payload filename contentType now false true bs ms).2.1.getObject
      filename = some ⟨payload, contentType⟩ ∧
    (createImage payload filename contentType now false true bs ms).2.1.deleteCalls =
      bs.deleteCalls :=
  ⟨rfl, rfl, BlobStore.getObject_putObject .., rfl⟩

-- C5 --

/-- C5: in `deleteImage`, when the row lookup finds a row but the Blob Store
delete fails, the handler aborts with the S3 delete error, the metadata
store is unchanged (the row is intact) and the blob store contents are
untouched. -/
theorem deleteImage_blobDeleteFail_spec (imageID : Nat) (dbDeleteFails : Bool)
    (bs : BlobStore) (ms : MetaStore) (row : ImageMetadata)
    (h : ms.findRow imageID = some row) :
    (deleteImage imageID false true dbDeleteFails bs ms).1 = .s3DeleteFailed ∧
    (deleteImage imageID false true dbDeleteFails bs ms).2.2 = ms ∧
    (deleteImage imageID false true dbDeleteFails bs ms).2.1.objects = bs.objects := by
  simp [deleteImage, h, BlobStore.failedDeleteObject]

/-- Witness for C5 at a concrete one-row store. -/
theorem deleteImage_blobDeleteFail_witness :
    (deleteImage 1 false true false bsW msW).1 = .s3DeleteFailed ∧
    (deleteImage 1 false true false bsW msW).2.2 = msW ∧
    (deleteImage 1 false true false bsW msW).2.1.objects = bsW.objects :=
  deleteImage_blobDeleteFail_spec 1 false bsW msW
    ⟨1, "a.png", 3, "a.png", "image/png", 0⟩ (by decide)

-- C6 --

/-- C6: `deleteImage` on an id with no metadata row returns `notFound` and
leaves both stores exactly as they were (no blob-store call is made, so even
the delete-call trace is unchanged). -/
theorem deleteImage_missing_spec (imageID : Nat) (s3DeleteFails dbDeleteFails : Bool)
    (bs : BlobStore) (ms : MetaStore) (h : ms.findRow imageID = none) :
    deleteImage imageID false s3DeleteFails dbDeleteFails bs ms = (.notFound, bs, ms) := by
  simp [deleteImage, h]

/-- Witness for C6: `delete(999)` on the empty stores. -/
theorem deleteImage_missing_witness :
    deleteImage 999 false false false ⟨[], []⟩ emptyMeta = (.notFound, ⟨[], []⟩, emptyMeta) :=
  deleteImage_missing_spec 999 false false ⟨[], []⟩ emptyMeta (by decide)

-- C7 --

/-- C7, counterexample: on a store whose row for id 1 exists, inject a
failure of the metadata lookup query itself (not a missing row).  Both
`deleteImage` and `downloadImage` answer `notFound` (the 404 branch), not a
500 store error, contrary to the claim. -/
theorem lookupError_counterexample :
    (deleteImage 1 true false false bsW msW).1 = .notFound ∧
    downloadImage 1 true false bsW msW = .notFound ∧
    msW.findRow 1 ≠ none := by
  decide

/-- C7, amended: in `deleteImage` and `downloadImage` every failure of the
metadata lookup — a failing query just like a missing row — yields the 404
`notFound`; the 500 store errors arise only from the later blob-store and
metadata-delete calls. -/
theorem lookupError_notFound_spec (imageID : Nat)
    (queryFails s3DeleteFails dbDeleteFails s3GetFails : Bool)
    (bs : BlobStore) (ms : MetaStore)
    (h : queryFails = true ∨ ms.findRow imageID = none) :
    (deleteImage imageID queryFails s3DeleteFails dbDeleteFails bs ms).1 = .notFound ∧
    downloadImage imageID queryFails s3GetFails bs ms = .notFound := by
  rcases h with h | h
  · subst h; exact ⟨rfl, rfl⟩
  · cases queryFails
    · simp [deleteImage, downloadImage, h]
    · exact ⟨rfl, rfl⟩

/-- Witness for C7 (amended) at a failing query over a non-empty store. -/
theorem lookupError_notFound_witness :
    (deleteImage 1 true false false bsW msW).1 = .notFound ∧
    downloadImage 1 true true bsW msW = .notFound :=
  lookupError_notFound_spec 1 true false false true bsW msW (Or.inl rfl)

-- C8 --

/-- C8: when the row lookup and the blob fetch both succeed, `downloadImage`
returns the raw stored bytes, a content type equal to the blob's stored
content type when that is non-empty and `application/octet-stream`
otherwise, and the attachment filename is the row's `objectKey`. -/
theorem downloadImage_ok_spec (imageID : Nat) (bs : BlobStore) (ms : MetaStore)
    (row : ImageMetadata) (obj : BlobObject)
    (hrow : ms.findRow imageID = some row)
    (hobj : bs.getObject row.objectKey = some obj) :
    downloadImage imageID false false bs ms =
      .ok obj.body
        (if obj.contentType = "" then "application/octet-stream" else obj.contentType)
        row.objectKey := by
  simp [downloadImage, hrow, hobj]

/-- Witness for C8 at the concrete one-row fixtures. -/
theorem downloadImage_ok_witness :
    downloadImage 1 false false bsW msW =
      .ok [1, 2, 3]
        (if "image/png" = "" then "application/octet-stream" else "image/png")
        "a.png" :=
  downloadImage_ok_spec 1 bsW msW ⟨1, "a.png", 3, "a.png", "image/png", 0⟩
    ⟨[1, 2, 3], "image/png"⟩ (by decide) (by decide)

-- C9 --

/-- C9: `listImages` over an empty table with a succeeding query returns the
empty sequence as a success, never an error; only a failing query produces
the read-failure result. -/
theorem listImages_empty_spec :
    (∀ n : Nat, listImages false ⟨[], n⟩ = .ok []) ∧
    (∀ ms : MetaStore, listImages true ms = .queryFailed) :=
  ⟨fun _ => rfl, fun _ => rfl⟩

-- C10 --

/-- C10: `downloadImage` reads the served content type from the blob
object, not from the row's `content_type` column — the row contributes only
its `objectKey`.  Formally, two metadata stores whose lookup for the id
agrees on `objectKey` (all other columns arbitrary) give identical download
results. -/
theorem downloadImage_dependsOnlyOnObjectKey (imageID : Nat)
    (queryFails s3GetFails : Bool) (bs : BlobStore) (ms1 ms2 : MetaStore)
    (h : (ms1.findRow imageID).map ImageMetadata.objectKey =
         (ms2.findRow imageID).map ImageMetadata.objectKey) :
    downloadImage imageID queryFails s3GetFails bs ms1 =
      downloadImage imageID queryFails s3GetFails bs ms2 := by
  cases queryFails
  · cases h1 : ms1.findRow imageID with
    | none =>
      cases h2 : ms2.findRow imageID with
      | none => simp [downloadImage, h1, h2]
      | some r2 => rw [h1, h2] at h; simp at h
    | some r1 =>
      cases h2 : ms2.findRow imageID with
      | none => rw [h1, h2] at h; simp at h
      | some r2 =>
        rw [h1, h2] at h
        simp at h
        simp [downloadImage, h1, h2, h]
  · rfl

/-- Witness for C10: `msW` and `msB` differ in the `content_type` (and
every other non-key) column yet download identically. -/
theorem downloadImage_dependsOnlyOnObjectKey_witness :
    downloadImage 1 false false bsW msW = downloadImage 1 false false bsW msB :=
  downloadImage_dependsOnlyOnObjectKey 1 false false bsW msW msB (by decide)

-- C3 --

theorem createImage_noFault_eq (payload : List Nat) (filename contentType : String)
    (now : Nat) (bs : BlobStore) (ms : MetaStore) :
    createImage payload filename contentType now false false bs ms =
      (.ok ⟨ms.nextId, filename, payload.length, filename, contentType, now⟩,
       bs.putObject filename ⟨payload, contentType⟩,
       ⟨ms.rows ++ [⟨ms.nextId, filename, payload.length, filename, contentType, now⟩],
        ms.nextId + 1⟩) := rfl

/-- C3: round-trip.  On a well-formed table, a fault-free create of a
non-empty payload under a non-empty filename succeeds with the new id, and
downloading that id immediately afterwards returns exactly the uploaded
bytes together with the non-empty declared content type, unchanged. -/
theorem create_download_roundTrip (payload : List Nat) (filename contentType : String)
    (now : Nat) (bs : BlobStore) (ms : MetaStore) (hwf : ms.wf)
    (hp : payload ≠ []) (hf : filename ≠ "") (hc : contentType ≠ "") :
    (createImage payload filename contentType now false false bs ms).1 =
      .ok ⟨ms.nextId, filename, payload.length, filename, contentType, now⟩ ∧
    downloadImage ms.nextId false false
      (createImage payload filename contentType now false false bs ms).2.1
      (createImage payload filename contentType now false false bs ms).2.2 =
      .ok payload contentType filename := by
  refine ⟨by rw [createImage_noFault_eq], ?_⟩
  rw [createImage_noFault_eq]
  have hnone : ∀ r ∈ ms.rows, ¬((r.id == ms.nextId) = true) := by
    intro r hr
    simp only [beq_iff_eq]
    exact Nat.ne_of_lt (hwf r hr)
  have hfind :
      MetaStore.findRow
        ⟨ms.rows ++ [⟨ms.nextId, filename, payload.length, filename, contentType, now⟩],
         ms.nextId + 1⟩ ms.nextId =
      some ⟨ms.nextId, filename, payload.length, filename, contentType, now⟩ :=
    (find?_append_of_none _ ms.rows _ hnone).trans
      (List.find?_cons_of_pos _ (by simp))
  simp [downloadImage, hfind, BlobStore.getObject_putObject, hc]

/-- Witness for C3 at the spec's concrete scenario. -/
theorem create_download_roundTrip_witness :
    (createImage [1, 2, 3] "a.png" "image/png" 7 false false ⟨[], []⟩ emptyMeta).1 =
      .ok ⟨1, "a.png", 3, "a.png", "image/png", 7⟩ ∧
    downloadImage 1 false false
      (createImage [1, 2, 3] "a.png" "image/png" 7 false false ⟨[], []⟩ emptyMeta).2.1
      (createImage [1, 2, 3] "a.png" "image/png" 7 false false ⟨[], []⟩ emptyMeta).2.2 =
      .ok [1, 2, 3] "image/png" "a.png" :=
  create_download_roundTrip [1, 2, 3] "a.png" "image/png" 7 ⟨[], []⟩ emptyMeta
    (by decide) (by decide) (by decide) (by decide)

-- C4 --

theorem createMany_cons (p : List Nat) (f ct : String)
    (rest : List (List Nat × String × String)) (now : Nat)
    (bs : BlobStore) (ms : MetaStore) :
    createMany ((p, f, ct) :: rest) now bs ms =
      createMany rest now (bs.putObject f ⟨p, ct⟩)
        ⟨ms.rows ++ [⟨ms.nextId, f, p.length, f, ct, now⟩], ms.nextId + 1⟩ := rfl

theorem createMany_meta (items : List (List Nat × String × String)) (now : Nat)
    (bs : BlobStore) (ms : MetaStore) :
    ((createMany items now bs ms).2).rows = ms.rows ++ newRecords items now ms.nextId ∧
    ((createMany items now bs ms).2).nextId = ms.nextId + items.length := by
  induction items generalizing bs ms with
  | nil => simp [createMany, newRecords]
  | cons item rest ih =>
    obtain ⟨p, f, ct⟩ := item
    rw [createMany_cons]
    have h := ih (bs.putObject f ⟨p, ct⟩)
      ⟨ms.rows ++ [⟨ms.nextId, f, p.length, f, ct, now⟩], ms.nextId + 1⟩
    refine ⟨?_, ?_⟩
    · rw [h.1]
      simp [newRecords]
    · rw [h.2]
      simp only [List.length_cons]
      omega

theorem newRecords_map_id (items : List (List Nat × String × String)) (now n : Nat) :
    (newRecords items now n).map ImageMetadata.id = List.range' n items.length := by
  induction items generalizing n with
  | nil => rfl
  | cons item rest ih =>
    obtain ⟨p, f, ct⟩ := item
    simp only [newRecords, List.map_cons, List.length_cons, List.range'_succ, ih]

theorem newRecords_length (items : List (List Nat × String × String)) (now n : Nat) :
    (newRecords items now n).length = items.length := by
  have h := congrArg List.length (newRecords_map_id items now n)
  simpa using h

theorem newRecords_map_fields (items : List (List Nat × String × String)) (now n : Nat) :
    (newRecords items now n).map (fun r => (r.filename, r.size, r.contentType)) =
      items.map (fun i => (i.2.1, i.1.length, i.2.2)) := by
  induction items generalizing n with
  | nil => rfl
  | cons item rest ih =>
    obtain ⟨p, f, ct⟩ := item
    simp only [newRecords, List.map_cons, ih]

theorem newRecords_sorted (items : List (List Nat × String × String)) (now n : Nat) :
    List.Sorted (fun a b : ImageMetadata => a.id ≤ b.id) (newRecords items now n) := by
  have h1 : List.Pairwise (fun a b : Nat => a ≤ b)
      ((newRecords items now n).map ImageMetadata.id) := by
    rw [newRecords_map_id]
    exact (List.pairwise_lt_range' n items.length).imp Nat.le_of_lt
  exact List.pairwise_map.mp h1

/-- C4: starting from a fresh table, after N fault-free creates `listImages`
succeeds and returns exactly the table's N rows; their ids are 1, 2, …, N in
ascending order and the per-row fields match the creates in insertion
order. -/
theorem listImages_after_creates (items : List (List Nat × String × String))
    (now : Nat) (bs : BlobStore) :
    listImages false (createMany items now bs emptyMeta).2 =
      .ok ((createMany items now bs emptyMeta).2.rows) ∧
    ((createMany items now bs emptyMeta).2).rows.length = items.length ∧
    ((createMany items now bs emptyMeta).2).rows.map ImageMetadata.id =
      List.range' 1 items.length ∧
    ((createMany items now bs emptyMeta).2).rows.map
        (fun r => (r.filename, r.size, r.contentType)) =
      items.map (fun i => (i.2.1, i.1.length, i.2.2)) := by
  have hrows : ((createMany items now bs emptyMeta).2).rows = newRecords items now 1 := by
    rw [(createMany_meta items now bs emptyMeta).1]
    rfl
  refine ⟨?_, ?_, ?_, ?_⟩
  · show ListResult.ok (((createMany items now bs emptyMeta).2).rows.insertionSort
        (fun a b => a.id ≤ b.id)) = .ok ((createMany items now bs emptyMeta).2.rows)
    rw [hrows, (newRecords_sorted items now 1).insertionSort_eq]
  · rw [hrows, newRecords_length]
  · rw [hrows, newRecords_map_id]
  · rw [hrows, newRecords_map_fields]
